import Mathlib

/-!
Verification development for the micro-visualizer playback/export core.

The Rust source is shallowly embedded:
* `f64` playback positions are modeled as exact rationals `ℚ` (idealized
  real arithmetic; the code's comparisons and conversions are translated
  operation by operation);
* `u64` frame counts are modeled as `Nat` (`as u64` casts from `f64`
  truncate toward zero and saturate at 0, which `Int.toNat` of the
  floor / ceiling computes);
* external collaborators (the kira audio handle, the ffmpeg child process,
  the GPU canvas, the file dialog) are modeled as per-call inputs: their
  responses (reported position, playback state, write success, spawn
  success, reloaded sound data) are parameters of each operation; calls
  that propagate `?` errors are modeled with an explicit error-carrying
  result type, and `unreachable!` / `unwrap` panics with a dedicated
  `panics` outcome.
-/

namespace MicroVisualizer

/-! ## time.rs -/

/-- Embeds `Frames::to_seconds`: `Seconds(self.0 as f64 / frame_rate as f64)`. -/
def Frames.to_seconds (f : Nat) (frame_rate : Nat) : ℚ :=
  (f : ℚ) / (frame_rate : ℚ)

/-- Embeds `Seconds::to_frames`: `Frames((self.0 * frame_rate as f64) as u64)`.
The Rust `as u64` cast truncates toward zero and saturates at 0 for
negative values; for any real `x` that is `(Int.floor x).toNat`. -/
def Seconds.to_frames (s : ℚ) (frame_rate : Nat) : Nat :=
  (Int.floor (s * (frame_rate : ℚ))).toNat

/-! ## main_state.rs time helpers -/

/-- Embeds `MainState::frame_to_time`: `frame as f64 / self.visualizer.frame_rate() as f64`. -/
def frame_to_time (frame : Nat) (frame_rate : Nat) : ℚ :=
  (frame : ℚ) / (frame_rate : ℚ)

/-- Embeds `MainState::num_frames`:
`(self.duration.as_secs_f64() * frame_rate as f64).ceil() as u64`. -/
def num_frames (duration : ℚ) (frame_rate : Nat) : Nat :=
  (Int.ceil (duration * (frame_rate : ℚ))).toNat

/-- The frame `MainState::current_frame` computes from a given current
position: `(self.current_position() * frame_rate as f64).ceil() as u64`. -/
def current_frame_of (pos : ℚ) (frame_rate : Nat) : Nat :=
  (Int.ceil (pos * (frame_rate : ℚ))).toNat

/-! ## main_state.rs: the Mode sum type

The `StreamingSoundData` held by `Mode::Stopped` is opaque except for the
one field the code mutates, `settings.start_position`; the live
`StreamingSoundHandle` of `PlayingOrPaused`, and the `canvas_read_buffer`
and `ffmpeg_process` of `Rendering`, are external resources reached only
through per-call inputs, so they carry no modeled state. -/

structure SoundData where
  start_position : ℚ
deriving DecidableEq

inductive Mode
  | stopped (data : Option SoundData) (start_position : ℚ)
  | playingOrPaused (in_progress_seek : Option ℚ)
  | rendering (end_frame : Nat) (current_frame : Nat)
deriving DecidableEq

/-- The observable outcome of one fallible user operation: `ok m` models
`Ok(())` with the mode field left as `m`; `err m` models a propagated `?`
error with the mode field left as `m`; `panics` models `unreachable!` or
`unwrap` on `None`. -/
inductive OpResult
  | ok (m : Mode)
  | err (m : Mode)
  | panics
deriving DecidableEq

/-- Embeds `MainState::play_or_resume` (main_state.rs:107-126). In `Stopped` the
code runs `data.take().unwrap()` — which leaves `None` behind in the mode
before `audio_manager.play(data)?` can fail — then on success replaces the
mode with `PlayingOrPaused { in_progress_seek: None }`. `play_ok` is the
result of `audio_manager.play`, `resume_ok` of `sound.resume`. -/
def play_or_resume (m : Mode) (play_ok : Bool) (resume_ok : Bool) : OpResult :=
  match m with
  | .stopped data start_position =>
    match data with
    | none => .panics
    | some _ =>
      if play_ok then .ok (.playingOrPaused none)
      else .err (.stopped none start_position)
  | .playingOrPaused ips =>
    if resume_ok then .ok (.playingOrPaused ips) else .err (.playingOrPaused ips)
  | .rendering _ _ => .panics

/-- Embeds `MainState::pause` (main_state.rs:128-133): only an
`if let Mode::PlayingOrPaused` — in every other mode it returns `Ok(())`
without touching anything. `pause_ok` is the result of `sound.pause`. -/
def pause (m : Mode) (pause_ok : Bool) : OpResult :=
  match m with
  | .playingOrPaused ips =>
    if pause_ok then .ok (.playingOrPaused ips) else .err (.playingOrPaused ips)
  | _ => .ok m

/-- Embeds `MainState::seek` (main_state.rs:144-159): in `Stopped` it overwrites
`start_position`; in `PlayingOrPaused` it calls `sound.seek_to(position)?`
(result `seek_ok`; on failure `in_progress_seek` is left untouched) and
then sets `in_progress_seek = Some(position)`; in `Rendering` it is
`unreachable!`. -/
def seek (m : Mode) (position : ℚ) (seek_ok : Bool) : OpResult :=
  match m with
  | .stopped data _ => .ok (.stopped data position)
  | .playingOrPaused ips =>
    if seek_ok then .ok (.playingOrPaused (some position))
    else .err (.playingOrPaused ips)
  | .rendering _ _ => .panics

/-- Embeds `FINISHED_SEEK_DETECTION_THRESHOLD: f64 = 0.1` (main_state.rs:28). -/
def FINISHED_SEEK_DETECTION_THRESHOLD : ℚ := 1/10

/-- Embeds `MainState::update` (main_state.rs:321-345): in `PlayingOrPaused`,
first clear `in_progress_seek` when `(sound.position() - destination).abs()`
is within the threshold, then, if the handle reports
`PlaybackState::Stopped`, replace the mode with a fresh `Stopped` whose
data is reloaded from file (`reload`; a failed reload propagates `?` with
the mode field left as is). `sound_position` and `sound_stopped` are the
handle's reported position and stopped-ness. -/
def update (m : Mode) (sound_position : ℚ) (sound_stopped : Bool)
    (reload : Option SoundData) : OpResult :=
  match m with
  | .playingOrPaused ips =>
    let ips2 : Option ℚ :=
      match ips with
      | some dest =>
        if |sound_position - dest| ≤ FINISHED_SEEK_DETECTION_THRESHOLD then none
        else some dest
      | none => none
    if sound_stopped then
      match reload with
      | some d => .ok (.stopped (some d) 0)
      | none => .err (.playingOrPaused ips2)
    else .ok (.playingOrPaused ips2)
  | _ => .ok m

/-! ## Chapters -/

structure Chapter where
  name : String
  start_frame : Nat
deriving DecidableEq

/-- Embeds `RenderingSettings` (main_state.rs:408-412). -/
structure RenderingSettings where
  start_chapter_index : Nat
  end_chapter_index : Nat
deriving DecidableEq

/-- Embeds `Chapters::index_at_frame` (chapters.rs): index of the last chapter
whose `start_frame <= frame`, scanning the enumerated list from the end. -/
def index_at_frame (chapters : List Chapter) (frame : Nat) : Option Nat :=
  ((chapters.enum.reverse).find? fun p => decide (p.2.start_frame ≤ frame)).map
    fun p => p.1

/-- Embeds `Chapters::end_frame` (chapters.rs:37-41):
`self.get(chapter_index + 1).map(|chapter| chapter.start_frame - 1)`. -/
def Chapters.end_frame (chapters : List Chapter) (chapter_index : Nat) : Option Nat :=
  (chapters.get? (chapter_index + 1)).map fun c => c.start_frame - 1

/-- Embeds `MainState::chapter_end_frame` (main_state.rs:174-179): like
`Chapters::end_frame` but substituting `num_frames() - 1` when there is no
next chapter. -/
def chapter_end_frame (chapters : List Chapter) (chapter_index : Nat) (nf : Nat) : Nat :=
  match chapters.get? (chapter_index + 1) with
  | some c => c.start_frame - 1
  | none => nf - 1

/-! ## Export pipeline (main_state.rs::render / stop_rendering) -/

/-- The `(start_frame, end_frame)` resolution of `MainState::render`
(main_state.rs:220-227): with chapters, the start chapter's `start_frame`
through `chapter_end_frame(end_chapter_index)`; without chapters,
`(0, num_frames() - 1)`. `none` models the panic of an out-of-bounds
`self.chapters[start_chapter_index]`. -/
def resolve_range (chapters : List Chapter) (settings : RenderingSettings)
    (nf : Nat) : Option (Nat × Nat) :=
  if chapters.isEmpty then some (0, nf - 1)
  else
    (chapters.get? settings.start_chapter_index).map
      fun c => (c.start_frame, chapter_end_frame chapters settings.end_chapter_index nf)

/-- The frame-range step of §4.4 of the spec, stated in the spec's own
words for comparison with `resolve_range`: if chapters exist,
`start_frame = chapters[start_chapter_index].start_frame` and
`end_frame = chapters.end_frame(end_chapter_index)` falling back to the
track's last frame; otherwise frame 0 through the track's last frame. -/
def spec_resolve_range (chapters : List Chapter) (settings : RenderingSettings)
    (track_last_frame : Nat) : Option (Nat × Nat) :=
  if chapters = [] then some (0, track_last_frame)
  else
    (chapters.get? settings.start_chapter_index).map
      fun c =>
        (c.start_frame,
          (Chapters.end_frame chapters settings.end_chapter_index).getD track_last_frame)

/-- Embeds `MainState::render` (main_state.rs:212-274): return early with the
mode untouched when the save dialog is cancelled; resolve the frame range
(indexing panic modeled by `panics`); `Command::new("ffmpeg")...spawn()?`
(result `spawn_ok`) — a spawn failure propagates `?` with the mode exactly
as it was; only after a successful spawn is the mode replaced by
`Rendering { end_frame, current_frame: start_frame, .. }`. -/
def render (m : Mode) (chapters : List Chapter) (settings : RenderingSettings)
    (nf : Nat) (dialog_confirmed : Bool) (spawn_ok : Bool) : OpResult :=
  if dialog_confirmed = false then .ok m
  else
    match resolve_range chapters settings nf with
    | none => .panics
    | some (start_frame, end_frame) =>
      if spawn_ok then .ok (.rendering end_frame start_frame)
      else .err m

/-! ## Chapter navigation (main_state/chapters.rs) -/

/-- Embeds `BEGINNING_OF_CHAPTER_THRESHOLD: Seconds = Seconds(2.0)`. -/
def BEGINNING_OF_CHAPTER_THRESHOLD : ℚ := 2

/-- The seek command chosen by a chapter-navigation routine: `noop` models
the early `return Ok(())`, `seekTo pos` models `self.seek(pos)`, and
`panics` the `.expect("no current chapter")` / out-of-bounds indexing. -/
inductive NavResult
  | noop
  | seekTo (pos : ℚ)
  | panics
deriving DecidableEq

/-- Embeds `MainState::go_to_previous_chapter` (main_state/chapters.rs:35-58):
no-op without chapters; find the current chapter from
`current_position().to_frames(frame_rate)`; if it is the first chapter or
more than `BEGINNING_OF_CHAPTER_THRESHOLD` seconds have elapsed since its
start, seek to the current chapter's own start, else seek to the previous
chapter's start (via `go_to_chapter(current_chapter_index - 1)`). -/
def go_to_previous_chapter (chapters : Option (List Chapter)) (frame_rate : Nat)
    (current_position : ℚ) : NavResult :=
  match chapters with
  | none => .noop
  | some cs =>
    match index_at_frame cs (Seconds.to_frames current_position frame_rate) with
    | none => .panics
    | some i =>
      match cs.get? i with
      | none => .panics
      | some current =>
        let current_chapter_start_time := Frames.to_seconds current.start_frame frame_rate
        let time_since_start_of_chapter := current_position - current_chapter_start_time
        if i = 0 ∨ time_since_start_of_chapter > BEGINNING_OF_CHAPTER_THRESHOLD then
          .seekTo current_chapter_start_time
        else
          match cs.get? (i - 1) with
          | none => .panics
          | some prev => .seekTo (Frames.to_seconds prev.start_frame frame_rate)

/-! ## The per-tick draw pass (main_state.rs:347-387) -/

inductive SwapInterval
  | immediate
  | vsync
deriving DecidableEq

/-- The `MainState` fields the draw pass reads and writes (besides the
canvas, which is external). -/
structure St where
  mode : Mode
  previous_position : ℚ
deriving DecidableEq

/-- External responses consumed by one draw tick: the handle's reported
position (used by `current_position` in `PlayingOrPaused`), the result of
`visualizer.draw`, the result of `ffmpeg_stdin.write_all`, and the result
of the `StreamingSoundData::from_file` reload inside `stop_rendering`. -/
structure TickIn where
  sound_position : ℚ
  draw_ok : Bool
  write_ok : Bool
  reload : Option SoundData
deriving DecidableEq

/-- Observable outcome of one draw tick: final fields, whether the tick
propagated an error, the frame passed to `visualizer.draw` (if invoked),
whether a write to the encoder's standard input was attempted, and any
`set_swap_interval` request issued. -/
structure DrawOut where
  st : St
  errored : Bool
  visual_draw : Option Nat
  wrote : Bool
  swap_request : Option SwapInterval
deriving DecidableEq

/-- Embeds `MainState::current_position` (main_state.rs:96-105). -/
def current_position (frame_rate : Nat) (m : Mode) (sound_position : ℚ) : ℚ :=
  match m with
  | .stopped _ start_position => start_position
  | .playingOrPaused ips => ips.getD sound_position
  | .rendering _ c => frame_to_time c frame_rate

/-- Embeds `MainState::stop_rendering` (main_state.rs:276-286): replace the mode
with `Stopped { data: Some(from_file(..)?), start_position: 0.0 }` and
request VSync again. A failed reload propagates `?` before the assignment,
leaving the mode untouched — modeled by `none`. -/
def stop_rendering (reload : Option SoundData) : Option Mode :=
  reload.map fun d => Mode.stopped (some d) 0

/-- The `if let Mode::Rendering` tail of `MainState::draw`
(main_state.rs:367-385): read back the canvas, `write_all` the buffer to
ffmpeg's standard input; on a failed write, `stop_rendering` without
touching `current_frame`; on a successful write increment `current_frame`
in place and `stop_rendering` once it exceeds `end_frame`. `vd` is the
visual-draw record threaded through from the first half of `draw`. -/
def rendering_write_phase (s : St) (inp : TickIn) (vd : Option Nat) : DrawOut :=
  match s.mode with
  | .rendering end_frame cur =>
    if inp.write_ok then
      if cur + 1 > end_frame then
        match stop_rendering inp.reload with
        | some m2 => ⟨⟨m2, s.previous_position⟩, false, vd, true, some .vsync⟩
        | none => ⟨⟨.rendering end_frame (cur + 1), s.previous_position⟩, true, vd, true, none⟩
      else ⟨⟨.rendering end_frame (cur + 1), s.previous_position⟩, false, vd, true, none⟩
    else
      match stop_rendering inp.reload with
      | some m2 => ⟨⟨m2, s.previous_position⟩, false, vd, true, some .vsync⟩
      | none => ⟨s, true, vd, true, none⟩
  | _ => ⟨s, false, vd, false, none⟩

/-- Embeds `MainState::draw` (main_state.rs:347-387): compute `current_frame`;
invoke `visualizer.draw` only when `current_position() != previous_position`
(a failed visual draw propagates `?` before `previous_position` is
updated); then run the rendering write phase on the (possibly updated)
state. -/
def draw (frame_rate : Nat) (s : St) (inp : TickIn) : DrawOut :=
  if current_position frame_rate s.mode inp.sound_position ≠ s.previous_position then
    if inp.draw_ok then
      rendering_write_phase
        ⟨s.mode, current_position frame_rate s.mode inp.sound_position⟩ inp
        (some (current_frame_of (current_position frame_rate s.mode inp.sound_position)
          frame_rate))
    else
      ⟨s, true,
        some (current_frame_of (current_position frame_rate s.mode inp.sound_position)
          frame_rate),
        false, none⟩
  else
    rendering_write_phase s inp none

/-- Iterated draw ticks: run `draw` over a list of per-tick inputs,
stopping at the first tick whose error propagates (the host loop aborts on
an `Err` tick), and count the encoder writes attempted. -/
def run_draw (frame_rate : Nat) (s : St) (inputs : List TickIn) : St × Nat :=
  match inputs with
  | [] => (s, 0)
  | inp :: rest =>
    let out := draw frame_rate s inp
    if out.errored then (out.st, if out.wrote then 1 else 0)
    else
      let r := run_draw frame_rate out.st rest
      (r.1, (if out.wrote then 1 else 0) + r.2)

/-! ## IEEE-754 binary64 semantics for the time conversions

The `ℚ`-valued conversions above are the idealized (exact-arithmetic)
reading of the code. The program actually computes in Rust `f64`
(IEEE-754 binary64, round-to-nearest-even), and the rounding matters for
the round-trip law, so the two fallible operations — the division in
`Frames::to_seconds` and the multiplication in `Seconds::to_frames` — are
additionally modeled with their true rounding below. Integer operands in
the program's range (frame indices and frame rates far below `2^53`) are
exactly representable, and IEEE requires division and multiplication to
return the correctly rounded exact result, so rounding the exact rational
result is the bit-accurate semantics. -/

/-- Round a rational to the nearest integer, ties to even: the
significand rounding of IEEE-754 round-to-nearest-even. -/
def rne (q : ℚ) : ℤ :=
  if Int.fract q < 1/2 then ⌊q⌋
  else if 1/2 < Int.fract q then ⌊q⌋ + 1
  else if ⌊q⌋ % 2 = 0 then ⌊q⌋ else ⌊q⌋ + 1

/-- IEEE-754 binary64 rounding of a positive real in the normal range:
scale into `[2^52, 2^53)` by the ulp of the value's binade (whose exponent
is `Int.log 2 x`, the floor of the base-2 logarithm), round the scaled
significand to nearest-even, scale back. -/
def fp64_pos (x : ℚ) : ℚ :=
  (rne (x * (2:ℚ) ^ ((52:ℤ) - Int.log 2 x)) : ℚ) * (2:ℚ) ^ (Int.log 2 x - 52)

/-- IEEE-754 binary64 rounding (normal range; the subnormal and overflow
ranges do not occur at the inputs considered here). -/
def fp64 (x : ℚ) : ℚ :=
  if 0 < x then fp64_pos x
  else if x < 0 then -fp64_pos (-x)
  else 0

/-- Embeds `Frames::to_seconds` under real `f64` semantics:
`self.0 as f64 / frame_rate as f64` — both integers are exactly
representable here, and the division rounds its exact quotient. -/
def to_seconds_f64 (f : Nat) (frame_rate : Nat) : ℚ :=
  fp64 ((f : ℚ) / (frame_rate : ℚ))

/-- Embeds `Seconds::to_frames` under real `f64` semantics: the product
`self.0 * frame_rate as f64` is the correctly rounded exact product, and
the `as u64` cast then truncates toward zero. -/
def to_frames_f64 (s : ℚ) (frame_rate : Nat) : Nat :=
  (Int.floor (fp64 (s * (frame_rate : ℚ)))).toNat

/-! # Theorems -/

/-! ## Helper lemmas for evaluating the conversions on concrete rationals
(the `Rat` instances do not reduce in the kernel, so concrete values are
computed through the floor/ceiling characterisations) -/

lemma to_frames_eval (s : ℚ) (r n : Nat) (h1 : (n : ℚ) ≤ s * (r : ℚ))
    (h2 : s * (r : ℚ) < (n : ℚ) + 1) : Seconds.to_frames s r = n := by
  unfold Seconds.to_frames
  have hfl : Int.floor (s * (r : ℚ)) = (n : ℤ) := by
    rw [Int.floor_eq_iff]
    constructor
    · exact_mod_cast h1
    · push_cast
      exact h2
  rw [hfl]
  exact Int.toNat_natCast n

lemma ceil_eval (x : ℚ) (n : Nat) (h1 : (n : ℚ) - 1 < x) (h2 : x ≤ (n : ℚ)) :
    (Int.ceil x).toNat = n := by
  have hcl : Int.ceil x = (n : ℤ) := by
    rw [Int.ceil_eq_iff]
    constructor
    · push_cast
      exact h1
    · exact_mod_cast h2
  rw [hcl]
  exact Int.toNat_natCast n

lemma current_frame_of_eval (pos : ℚ) (r n : Nat) (h1 : (n : ℚ) - 1 < pos * (r : ℚ))
    (h2 : pos * (r : ℚ) ≤ (n : ℚ)) : current_frame_of pos r = n :=
  ceil_eval _ n h1 h2

/-! ## C3: round trip of the time conversions -/

/-- In exact arithmetic the round trip would hold for every `r > 0` and
every `f` — the failure established below is purely an artifact of the
`f64` rounding the program actually performs, which is what makes the
spec's round-trip law the evident intent and the floating-point
computation the slip. -/
lemma round_trip_exact_arithmetic (r : Nat) (f : Nat) (hr : 0 < r) :
    Seconds.to_frames (Frames.to_seconds f r) r = f := by
  unfold Seconds.to_frames Frames.to_seconds
  have hr' : (r : ℚ) ≠ 0 := by
    exact_mod_cast Nat.pos_iff_ne_zero.mp hr
  rw [div_mul_cancel₀ _ hr']
  rw [Int.floor_natCast]
  exact Int.toNat_natCast f

lemma rne_eval_lt (q : ℚ) (n : ℤ) (h1 : (n : ℚ) ≤ q) (h2 : q < (n : ℚ) + 1/2) :
    rne q = n := by
  have hfl : ⌊q⌋ = n := by
    rw [Int.floor_eq_iff]
    constructor
    · exact h1
    · linarith
  unfold rne Int.fract
  rw [hfl]
  rw [if_pos (by linarith : q - ((n : ℤ) : ℚ) < 1/2)]

lemma int_log_eval (x : ℚ) (z : ℤ) (hx : 0 < x)
    (h1 : (2:ℚ) ^ z ≤ x) (h2 : x < (2:ℚ) ^ (z + 1)) : Int.log 2 x = z := by
  have hc : ((2:ℕ) : ℚ) = (2:ℚ) := by norm_num
  have hle : z ≤ Int.log 2 x := by
    rw [← Int.zpow_le_iff_le_log one_lt_two hx, hc]
    exact h1
  have hlt : Int.log 2 x < z + 1 := by
    rw [← Int.lt_zpow_iff_log_lt one_lt_two hx, hc]
    exact h2
  omega

lemma fp64_pos_eval (x : ℚ) (e m : ℤ) (hx : 0 < x)
    (hlog : Int.log 2 x = e) (hrne : rne (x * (2:ℚ) ^ ((52:ℤ) - e)) = m) :
    fp64 x = (m : ℚ) * (2:ℚ) ^ (e - 52) := by
  unfold fp64
  rw [if_pos hx]
  unfold fp64_pos
  rw [hlog, hrne]

/-- Claim C3 evaluated on the program's real binary64 arithmetic fails at
`f = 123` with the default frame rate `r = 60`: `123.0 / 60.0` rounds to
the double `4616189618054758 / 2^51` (= 2.05 on the nose in decimal but
below `123/60`), multiplying it back by `60.0` rounds to the double
`8655355533852671 / 2^46` (= 122.99999999999999, one ulp below 123), and
the `as u64` truncation then yields 122, not 123 — so
`seconds_to_frame(frame_to_seconds(123, 60), 60) = 122 ≠ 123` in the
program, while the spec's round-trip law demands 123. -/
theorem C3_round_trip_f64_failure :
    to_seconds_f64 123 60 = 4616189618054758 / 2251799813685248 ∧
    fp64 (to_seconds_f64 123 60 * (60:ℚ)) = 8655355533852671 / 70368744177664 ∧
    to_frames_f64 (to_seconds_f64 123 60) 60 = 122 := by
  have hts : to_seconds_f64 123 60 = fp64 ((123:ℚ)/60) := by
    unfold to_seconds_f64
    norm_num
  have hs : fp64 ((123:ℚ)/60) = 4616189618054758 / 2251799813685248 := by
    have h := fp64_pos_eval ((123:ℚ)/60) 1 4616189618054758 (by norm_num)
      (int_log_eval _ 1 (by norm_num) (by norm_num) (by norm_num))
      (rne_eval_lt _ _ (by norm_num) (by norm_num))
    rw [h]
    norm_num
  have hfpv : fp64 ((276971377083285480:ℚ) / 2251799813685248)
      = 8655355533852671 / 70368744177664 := by
    have h := fp64_pos_eval ((276971377083285480:ℚ) / 2251799813685248) 6
      8655355533852671 (by norm_num)
      (int_log_eval _ 6 (by norm_num) (by norm_num) (by norm_num))
      (rne_eval_lt _ _ (by norm_num) (by norm_num))
    rw [h]
    norm_num
  have hfloor : Int.floor ((8655355533852671:ℚ) / 70368744177664) = 122 := by
    rw [Int.floor_eq_iff]
    constructor
    · norm_num
    · norm_num
  refine ⟨?_, ?_, ?_⟩
  · rw [hts, hs]
  · rw [hts, hs]
    rw [show (4616189618054758:ℚ)/2251799813685248 * 60
        = 276971377083285480 / 2251799813685248 from by norm_num]
    exact hfpv
  · unfold to_frames_f64
    rw [hts, hs]
    rw [show (4616189618054758:ℚ)/2251799813685248 * ((60:ℕ) : ℚ)
        = 276971377083285480 / 2251799813685248 from by norm_num]
    rw [hfpv, hfloor]
    rfl

/-! ## C4: seconds-to-frame is a floor, not a ceiling -/

/-- Counterexample to claim C4 as stated: at `s = 1/2`, `rate = 3`,
`Seconds::to_frames` returns `1` while the ceiling of `s * rate` is `2`;
frame `1`'s playback time `1/3` is strictly below `s`, so the returned
frame is not the smallest frame whose playback time is `≥ s` (that frame
is `2`). -/
theorem C4_ceiling_counterexample :
    Seconds.to_frames (1/2 : ℚ) 3 = 1 ∧
    current_frame_of (1/2 : ℚ) 3 = 2 ∧
    Frames.to_seconds 1 3 < (1/2 : ℚ) ∧
    Frames.to_seconds 2 3 ≥ (1/2 : ℚ) := by
  refine ⟨to_frames_eval _ _ 1 (by norm_num) (by norm_num), ?_, ?_, ?_⟩
  · exact current_frame_of_eval _ _ 2 (by norm_num) (by norm_num)
  · unfold Frames.to_seconds
    norm_num
  · unfold Frames.to_seconds
    norm_num

/-- Claim C4, amended: for `s ≥ 0` and `rate > 0`, `Seconds::to_frames`
returns the floor (truncation) of `s * rate`: the largest frame index
whose playback time is `≤ s`. (The separate computation
`MainState::current_frame` does take the ceiling of `position * rate`,
i.e. the smallest frame whose playback time is `≥` the position.) -/
theorem C4_to_frames_floor (s : ℚ) (r : Nat) (hs : 0 ≤ s) (hr : 0 < r) :
    Seconds.to_frames s r = (Int.floor (s * (r : ℚ))).toNat ∧
    Frames.to_seconds (Seconds.to_frames s r) r ≤ s ∧
    (∀ n : Nat, Frames.to_seconds n r ≤ s → n ≤ Seconds.to_frames s r) ∧
    Frames.to_seconds (current_frame_of s r) r ≥ s ∧
    (∀ n : Nat, Frames.to_seconds n r ≥ s → current_frame_of s r ≤ n) := by
  have hrQ : (0 : ℚ) < (r : ℚ) := by exact_mod_cast hr
  have hsr : (0 : ℚ) ≤ s * (r : ℚ) := mul_nonneg hs (le_of_lt hrQ)
  have hfloor : (0 : ℤ) ≤ Int.floor (s * (r : ℚ)) := Int.floor_nonneg.mpr hsr
  refine ⟨rfl, ?_, ?_, ?_, ?_⟩
  · unfold Seconds.to_frames Frames.to_seconds
    rw [div_le_iff₀ hrQ]
    have hcast : ((Int.floor (s * (r : ℚ))).toNat : ℚ)
        = ((Int.floor (s * (r : ℚ)) : ℤ) : ℚ) := by
      exact_mod_cast congrArg (fun z : ℤ => (z : ℚ)) (Int.toNat_of_nonneg hfloor)
    rw [hcast]
    exact Int.floor_le _
  · intro n hn
    unfold Seconds.to_frames
    unfold Frames.to_seconds at hn
    rw [div_le_iff₀ hrQ] at hn
    have hn' : (n : ℤ) ≤ Int.floor (s * (r : ℚ)) := Int.le_floor.mpr (by exact_mod_cast hn)
    omega
  · unfold Frames.to_seconds current_frame_of
    rw [ge_iff_le, le_div_iff₀ hrQ]
    have hceil : (0 : ℤ) ≤ Int.ceil (s * (r : ℚ)) := Int.ceil_nonneg hsr
    have hcast : ((Int.ceil (s * (r : ℚ))).toNat : ℚ)
        = ((Int.ceil (s * (r : ℚ)) : ℤ) : ℚ) := by
      exact_mod_cast congrArg (fun z : ℤ => (z : ℚ)) (Int.toNat_of_nonneg hceil)
    rw [hcast]
    exact Int.le_ceil _
  · intro n hn
    unfold Frames.to_seconds at hn
    rw [ge_iff_le, le_div_iff₀ hrQ] at hn
    unfold current_frame_of
    have hn' : Int.ceil (s * (r : ℚ)) ≤ (n : ℤ) := Int.ceil_le.mpr (by exact_mod_cast hn)
    omega

/-- Witness for the amended C4 at `s = 1/2`, `r = 3`. -/
theorem C4_to_frames_floor_witness :
    (0 : ℚ) ≤ 1/2 ∧ 0 < 3 ∧
    (Seconds.to_frames (1/2 : ℚ) 3 = (Int.floor ((1/2 : ℚ) * (3 : ℚ))).toNat ∧
     Frames.to_seconds (Seconds.to_frames (1/2 : ℚ) 3) 3 ≤ (1/2 : ℚ) ∧
     (∀ n : Nat, Frames.to_seconds n 3 ≤ (1/2 : ℚ) → n ≤ Seconds.to_frames (1/2 : ℚ) 3) ∧
     Frames.to_seconds (current_frame_of (1/2 : ℚ) 3) 3 ≥ (1/2 : ℚ) ∧
     (∀ n : Nat, Frames.to_seconds n 3 ≥ (1/2 : ℚ) → current_frame_of (1/2 : ℚ) 3 ≤ n)) :=
  ⟨by norm_num, by norm_num, C4_to_frames_floor (1/2 : ℚ) 3 (by norm_num) (by norm_num)⟩

/-! ## C10: pause while Stopped is a successful no-op -/

/-- Claim C10: calling `pause` while the mode is `Stopped` returns success
and leaves the entire state unchanged: the mode remains the same `Stopped`
value with its pending audio data and `start_position` unmodified. -/
theorem C10_pause_stopped (data : Option SoundData) (start_position : ℚ)
    (pause_ok : Bool) :
    pause (.stopped data start_position) pause_ok = .ok (.stopped data start_position) :=
  rfl

/-! ## C7: operations issued during Rendering -/

/-- Counterexample to claim C7 as stated: `pause` invoked in `Rendering`
mode does not fail loudly — it returns `Ok(())` and silently leaves the
mode unchanged, because `MainState::pause` is only an
`if let Mode::PlayingOrPaused`. -/
theorem C7_pause_rendering_counterexample :
    pause (.rendering 10 5) true = .ok (.rendering 10 5) ∧
    pause (.rendering 10 5) true ≠ .panics := by
  refine ⟨rfl, ?_⟩
  intro h
  exact OpResult.noConfusion h

/-- Claim C7, amended: `seek` and `play_or_resume` invoked while the mode
is `Rendering` panic (`unreachable!`, a loud programmer-error failure),
but `pause` silently returns success and leaves the mode unchanged. -/
theorem C7_rendering_ops (end_frame current_frame : Nat) (position : ℚ)
    (play_ok resume_ok pause_ok seek_ok : Bool) :
    play_or_resume (.rendering end_frame current_frame) play_ok resume_ok = .panics ∧
    seek (.rendering end_frame current_frame) position seek_ok = .panics ∧
    pause (.rendering end_frame current_frame) pause_ok
      = .ok (.rendering end_frame current_frame) :=
  ⟨rfl, rfl, rfl⟩

/-! ## C6: seek debounce -/

/-- Claim C6: in `PlayingOrPaused`, `seek(pos)` (with the handle's
`seek_to` succeeding) sets `in_progress_seek = Some(pos)` — and leaves it
untouched when `seek_to` fails before the assignment; on a subsequent
update tick with `in_progress_seek = Some(dest)` and the handle still
playing, the pending seek is cleared exactly when the absolute difference
between the handle's reported position and the target is within the fixed
`0.1`-second threshold, and not before. -/
theorem C6_seek_debounce (ips : Option ℚ) (position sound_position dest : ℚ)
    (reload : Option SoundData) :
    seek (.playingOrPaused ips) position true = .ok (.playingOrPaused (some position)) ∧
    seek (.playingOrPaused ips) position false = .err (.playingOrPaused ips) ∧
    update (.playingOrPaused (some dest)) sound_position false reload =
      .ok (.playingOrPaused
        (if |sound_position - dest| ≤ FINISHED_SEEK_DETECTION_THRESHOLD then none
         else some dest)) ∧
    (update (.playingOrPaused (some dest)) sound_position false reload =
        .ok (.playingOrPaused none) ↔
      |sound_position - dest| ≤ 1/10) := by
  refine ⟨rfl, rfl, ?_, ?_⟩
  · unfold update
    simp
  · unfold update FINISHED_SEEK_DETECTION_THRESHOLD
    by_cases h : |sound_position - dest| ≤ (1/10 : ℚ)
    · simp [h]
    · simp [h]

/-! ## C8: failure atomicity of play and of starting an export -/

/-- Counterexample to claim C8 as stated: starting playback from
`Stopped { data: Some(d), start_position: 5 }` with the underlying `play`
call failing does not leave the mode exactly as it was: `data.take()` has
already consumed the pending audio data, so the mode left behind is
`Stopped { data: None, start_position: 5 }`, a different value. -/
theorem C8_play_failure_counterexample :
    play_or_resume (.stopped (some ⟨5⟩) 5) false true = .err (.stopped none 5) ∧
    Mode.stopped none 5 ≠ Mode.stopped (some ⟨5⟩) 5 := by
  refine ⟨rfl, ?_⟩
  intro h
  simp at h

/-- Claim C8, amended: an encoder spawn failure aborts `render` entirely —
the mode is left exactly as it was and `Rendering` is never entered — but
a failed `play` from `Stopped` is not atomic: it leaves
`Stopped { data: None }` behind (the pending audio data was consumed by
`data.take()`), with only `start_position` preserved. -/
theorem C8_failure_atomicity (m : Mode) (chapters : List Chapter)
    (settings : RenderingSettings) (nf : Nat) (range : Nat × Nat)
    (d : SoundData) (p : ℚ) (resume_ok : Bool)
    (hrange : resolve_range chapters settings nf = some range) :
    render m chapters settings nf true false = .err m ∧
    (∀ e c, render m chapters settings nf true false ≠ .ok (.rendering e c)) ∧
    play_or_resume (.stopped (some d) p) false resume_ok = .err (.stopped none p) := by
  have hr : render m chapters settings nf true false = .err m := by
    unfold render
    rw [hrange]
    simp
  refine ⟨hr, ?_, rfl⟩
  intro e c hcontra
  rw [hr] at hcontra
  exact OpResult.noConfusion hcontra

/-- Witness for the amended C8: no chapters, `nf = 10`, so the range
resolves to `(0, 9)`. -/
theorem C8_failure_atomicity_witness :
    resolve_range [] ⟨0, 0⟩ 10 = some (0, 9) ∧
    (render (.stopped (some ⟨0⟩) 0) [] ⟨0, 0⟩ 10 true false
        = .err (.stopped (some ⟨0⟩) 0) ∧
      (∀ e c, render (.stopped (some ⟨0⟩) 0) [] ⟨0, 0⟩ 10 true false
        ≠ .ok (.rendering e c)) ∧
      play_or_resume (.stopped (some ⟨3⟩) 7) false true = .err (.stopped none 7)) :=
  ⟨rfl, C8_failure_atomicity (.stopped (some ⟨0⟩) 0) [] ⟨0, 0⟩ 10 (0, 9) ⟨3⟩ 7 true rfl⟩

/-! ## C9: export frame-range resolution -/

/-- Claim C9: the frame range `MainState::render` resolves agrees with the
spec's description: with chapters, the start chapter's `start_frame`
through `Chapters::end_frame(end_chapter_index)` with the track's last
frame (`num_frames - 1`) as fallback for the final chapter; without
chapters, frame 0 through the track's last frame derived from the audio
duration and the frame rate. -/
theorem C9_resolve_range (chapters : List Chapter) (settings : RenderingSettings)
    (duration : ℚ) (rate : Nat) :
    resolve_range chapters settings (num_frames duration rate) =
      spec_resolve_range chapters settings (num_frames duration rate - 1) := by
  unfold resolve_range spec_resolve_range
  have hend : chapter_end_frame chapters settings.end_chapter_index (num_frames duration rate)
      = (Chapters.end_frame chapters settings.end_chapter_index).getD
          (num_frames duration rate - 1) := by
    unfold chapter_end_frame Chapters.end_frame
    cases chapters.get? (settings.end_chapter_index + 1) <;> simp
  rw [hend]
  by_cases h : chapters = []
  · simp [h]
  · simp [h, List.isEmpty_iff]

/-! ## C5: go_to_previous_chapter policy -/

/-- Claim C5: `go_to_previous_chapter` is a no-op when there are no
chapters; when the current chapter is the first, or when the time elapsed
since the current chapter's start exceeds 2 seconds, it seeks to the
current chapter's own start; otherwise it seeks to the previous chapter's
start. -/
theorem C5_go_to_previous_chapter (frame_rate : Nat) (pos : ℚ)
    (cs : List Chapter) (i : Nat) (current : Chapter)
    (hidx : index_at_frame cs (Seconds.to_frames pos frame_rate) = some i)
    (hget : cs.get? i = some current) :
    go_to_previous_chapter none frame_rate pos = .noop ∧
    ((i = 0 ∨ pos - Frames.to_seconds current.start_frame frame_rate > 2) →
      go_to_previous_chapter (some cs) frame_rate pos =
        .seekTo (Frames.to_seconds current.start_frame frame_rate)) ∧
    (∀ j prev, i = j + 1 →
      pos - Frames.to_seconds current.start_frame frame_rate ≤ 2 →
      cs.get? j = some prev →
      go_to_previous_chapter (some cs) frame_rate pos =
        .seekTo (Frames.to_seconds prev.start_frame frame_rate)) := by
  refine ⟨rfl, ?_, ?_⟩
  · intro h
    simp only [go_to_previous_chapter, hidx, hget, BEGINNING_OF_CHAPTER_THRESHOLD]
    rw [if_pos h]
  · intro j prev hij hle hjget
    simp only [go_to_previous_chapter, hidx, hget, BEGINNING_OF_CHAPTER_THRESHOLD]
    rw [if_neg]
    · have hj : i - 1 = j := by omega
      rw [hj, hjget]
    · push_neg
      constructor
      · omega
      · exact hle

/-- Witness for C5 with chapters A (frame 0) and B (frame 150) at 60 fps
(so B starts at 2.5 s): at position 3 s (0.5 s into B) the routine seeks
to A's start; at position 5.5 s (3 s into B) it restarts B. -/
theorem C5_go_to_previous_chapter_witness :
    index_at_frame [⟨"A", 0⟩, ⟨"B", 150⟩] (Seconds.to_frames 3 60) = some 1 ∧
    List.get? [(⟨"A", 0⟩ : Chapter), ⟨"B", 150⟩] 1 = some ⟨"B", 150⟩ ∧
    go_to_previous_chapter (some [⟨"A", 0⟩, ⟨"B", 150⟩]) 60 3 =
      .seekTo (Frames.to_seconds 0 60) ∧
    go_to_previous_chapter (some [⟨"A", 0⟩, ⟨"B", 150⟩]) 60 (11/2) =
      .seekTo (Frames.to_seconds 150 60) := by
  have hf1 : Seconds.to_frames (3 : ℚ) 60 = 180 :=
    to_frames_eval _ _ 180 (by norm_num) (by norm_num)
  have hf2 : Seconds.to_frames (11/2 : ℚ) 60 = 330 :=
    to_frames_eval _ _ 330 (by norm_num) (by norm_num)
  have hidx1 : index_at_frame [⟨"A", 0⟩, ⟨"B", 150⟩] (Seconds.to_frames 3 60) = some 1 := by
    rw [hf1]
    rfl
  have hidx2 : index_at_frame [⟨"A", 0⟩, ⟨"B", 150⟩] (Seconds.to_frames (11/2) 60) = some 1 := by
    rw [hf2]
    rfl
  refine ⟨hidx1, rfl, ?_, ?_⟩
  · exact (C5_go_to_previous_chapter 60 3 [⟨"A", 0⟩, ⟨"B", 150⟩] 1 ⟨"B", 150⟩ hidx1
      rfl).2.2 0 ⟨"A", 0⟩ rfl (by unfold Frames.to_seconds; norm_num) rfl
  · exact (C5_go_to_previous_chapter 60 (11/2) [⟨"A", 0⟩, ⟨"B", 150⟩] 1 ⟨"B", 150⟩ hidx2
      rfl).2.1 (Or.inr (by unfold Frames.to_seconds; norm_num))

/-! ## Structural lemmas about the draw tick -/

lemma rendering_write_phase_vd (s : St) (inp : TickIn) (vd : Option Nat) :
    (rendering_write_phase s inp vd).visual_draw = vd := by
  unfold rendering_write_phase
  split
  · split
    · split
      · split <;> rfl
      · rfl
    · split <;> rfl
  · rfl

lemma rendering_write_phase_prev (s : St) (inp : TickIn) (vd : Option Nat) :
    (rendering_write_phase s inp vd).st.previous_position = s.previous_position := by
  unfold rendering_write_phase
  split
  · split
    · split
      · split <;> rfl
      · rfl
    · split <;> rfl
  · rfl

lemma rendering_write_phase_playing (s : St) (inp : TickIn) (vd : Option Nat)
    (ips : Option ℚ) (hm : s.mode = .playingOrPaused ips) :
    rendering_write_phase s inp vd = ⟨s, false, vd, false, none⟩ := by
  unfold rendering_write_phase
  rw [hm]

lemma draw_st_playing (rate : Nat) (s : St) (inp : TickIn) (ips : Option ℚ)
    (hm : s.mode = .playingOrPaused ips) (hdraw : inp.draw_ok = true) :
    (draw rate s inp).st = ⟨s.mode, current_position rate s.mode inp.sound_position⟩ := by
  unfold draw
  by_cases h : current_position rate s.mode inp.sound_position ≠ s.previous_position
  · rw [if_pos h, hdraw, if_pos rfl]
    rw [rendering_write_phase_playing
      ⟨s.mode, current_position rate s.mode inp.sound_position⟩ inp _ ips hm]
  · rw [if_neg h]
    rw [rendering_write_phase_playing s inp none ips hm]
    push_neg at h
    rw [h]

/-- The visual-draw dispatch of `MainState::draw`, in closed form: the
visualizer is invoked (with the current frame) exactly when the current
position differs from `previous_position`. -/
lemma draw_visual_draw (rate : Nat) (s : St) (inp : TickIn)
    (hdraw : inp.draw_ok = true) :
    (draw rate s inp).visual_draw =
      if current_position rate s.mode inp.sound_position ≠ s.previous_position
      then some (current_frame_of (current_position rate s.mode inp.sound_position) rate)
      else none := by
  unfold draw
  by_cases h : current_position rate s.mode inp.sound_position ≠ s.previous_position
  · rw [if_pos h, if_pos h, hdraw, if_pos rfl]
    exact rendering_write_phase_vd _ _ _
  · rw [if_neg h, if_neg h]
    exact rendering_write_phase_vd _ _ _

/-- After a draw tick whose visual dispatch did not fail,
`previous_position` holds that tick's current position (either it was
updated to it, or it already equaled it). -/
lemma draw_prev (rate : Nat) (s : St) (inp : TickIn)
    (hdraw : inp.draw_ok = true) :
    (draw rate s inp).st.previous_position =
      current_position rate s.mode inp.sound_position := by
  unfold draw
  by_cases h : current_position rate s.mode inp.sound_position ≠ s.previous_position
  · rw [if_pos h, hdraw, if_pos rfl]
    exact rendering_write_phase_prev _ _ _
  · rw [if_neg h]
    rw [rendering_write_phase_prev _ _ _]
    push_neg at h
    exact h.symm

/-! ## C2: frame-change gating -/

/-- Counterexample to claim C2 as stated: the gate compares positions, not
frame numbers. Two consecutive ticks in `PlayingOrPaused` at 60 fps with
reported positions `1/500` and then `1/1000` both map to frame 1, yet the
visual draw is invoked on both ticks, because the positions differ. -/
theorem C2_frame_gating_counterexample :
    (draw 60 ⟨.playingOrPaused none, 0⟩ ⟨1/500, true, true, none⟩).visual_draw = some 1 ∧
    (draw 60 (draw 60 ⟨.playingOrPaused none, 0⟩ ⟨1/500, true, true, none⟩).st
        ⟨1/1000, true, true, none⟩).visual_draw = some 1 ∧
    current_frame_of (1/1000 : ℚ) 60 = current_frame_of (1/500 : ℚ) 60 := by
  have hst : (draw 60 ⟨.playingOrPaused none, 0⟩ ⟨1/500, true, true, none⟩).st
      = ⟨.playingOrPaused none, 1/500⟩ := by
    rw [draw_st_playing 60 _ _ none rfl rfl]
    rfl
  have hcf1 : current_frame_of (1/500 : ℚ) 60 = 1 :=
    current_frame_of_eval _ _ 1 (by norm_num) (by norm_num)
  have hcf2 : current_frame_of (1/1000 : ℚ) 60 = 1 :=
    current_frame_of_eval _ _ 1 (by norm_num) (by norm_num)
  refine ⟨?_, ?_, ?_⟩
  · rw [draw_visual_draw 60 _ _ rfl]
    simp only [current_position, Option.getD_none]
    rw [if_pos (by norm_num : (1/500 : ℚ) ≠ 0)]
    rw [hcf1]
  · rw [hst]
    rw [draw_visual_draw 60 _ _ rfl]
    simp only [current_position, Option.getD_none]
    rw [if_pos (by norm_num : (1/1000 : ℚ) ≠ 1/500)]
    rw [hcf2]
  · rw [hcf1, hcf2]

/-- Claim C2, amended: on every tick (whose visual dispatch does not
fail), the visual-draw collaborator is invoked if and only if the current
position differs from the previous tick's current position. A changed
current frame always implies a changed position and hence an invocation,
but the converse fails (see the counterexample); two consecutive ticks
with the same current position result in only one invocation. -/
theorem C2_draw_gating (rate : Nat) (s : St) (inp inp2 : TickIn)
    (hdraw : inp.draw_ok = true) (hdraw2 : inp2.draw_ok = true) :
    ((draw rate s inp).visual_draw.isSome = true ↔
      current_position rate s.mode inp.sound_position ≠ s.previous_position) ∧
    (current_frame_of (current_position rate s.mode inp.sound_position) rate ≠
        current_frame_of s.previous_position rate →
      (draw rate s inp).visual_draw.isSome = true) ∧
    (current_position rate (draw rate s inp).st.mode inp2.sound_position =
        current_position rate s.mode inp.sound_position →
      (draw rate (draw rate s inp).st inp2).visual_draw = none) := by
  have hiff : (draw rate s inp).visual_draw.isSome = true ↔
      current_position rate s.mode inp.sound_position ≠ s.previous_position := by
    rw [draw_visual_draw rate s inp hdraw]
    by_cases h : current_position rate s.mode inp.sound_position ≠ s.previous_position
    · simp [h]
    · simp [h]
  refine ⟨hiff, ?_, ?_⟩
  · intro hf
    apply hiff.mpr
    intro hpe
    exact hf (by rw [hpe])
  · intro hpos2
    rw [draw_visual_draw rate _ _ hdraw2]
    rw [if_neg]
    push_neg
    rw [hpos2, draw_prev rate s inp hdraw]

/-- Witness for the amended C2 at 60 fps: a paused-at-position-`1/4` state
drawn twice with unchanged reported position `1/4`. -/
theorem C2_draw_gating_witness :
    (⟨(1/4 : ℚ), true, true, none⟩ : TickIn).draw_ok = true ∧
    (((draw 60 ⟨.playingOrPaused none, 0⟩ ⟨1/4, true, true, none⟩).visual_draw.isSome = true ↔
        current_position 60 (Mode.playingOrPaused none) (1/4) ≠ (0 : ℚ)) ∧
      (current_position 60
          (draw 60 ⟨.playingOrPaused none, 0⟩ ⟨1/4, true, true, none⟩).st.mode (1/4) =
          current_position 60 (Mode.playingOrPaused none) (1/4) →
        (draw 60 (draw 60 ⟨.playingOrPaused none, 0⟩ ⟨1/4, true, true, none⟩).st
          ⟨1/4, true, true, none⟩).visual_draw = none)) :=
  ⟨rfl,
    (C2_draw_gating 60 ⟨.playingOrPaused none, 0⟩ ⟨1/4, true, true, none⟩
      ⟨1/4, true, true, none⟩ rfl rfl).1,
    (C2_draw_gating 60 ⟨.playingOrPaused none, 0⟩ ⟨1/4, true, true, none⟩
      ⟨1/4, true, true, none⟩ rfl rfl).2.2⟩

/-! ## Outcome lemmas for the rendering write phase -/

lemma write_phase_fail (s : St) (inp : TickIn) (vd : Option Nat) (e c : Nat)
    (d : SoundData) (hm : s.mode = .rendering e c) (hw : inp.write_ok = false)
    (hr : inp.reload = some d) :
    rendering_write_phase s inp vd =
      ⟨⟨.stopped (some d) 0, s.previous_position⟩, false, vd, true, some .vsync⟩ := by
  unfold rendering_write_phase
  rw [hm, hw]
  simp only [Bool.false_eq_true, if_false]
  rw [hr]
  rfl

lemma write_phase_continue (s : St) (inp : TickIn) (vd : Option Nat) (e c : Nat)
    (hm : s.mode = .rendering e c) (hw : inp.write_ok = true) (hc : c + 1 ≤ e) :
    rendering_write_phase s inp vd =
      ⟨⟨.rendering e (c + 1), s.previous_position⟩, false, vd, true, none⟩ := by
  unfold rendering_write_phase
  rw [hm, hw]
  simp only [eq_self_iff_true, if_true]
  rw [if_neg (by omega : ¬(c + 1 > e))]

lemma write_phase_finish (s : St) (inp : TickIn) (vd : Option Nat) (e c : Nat)
    (d : SoundData) (hm : s.mode = .rendering e c) (hw : inp.write_ok = true)
    (hc : c + 1 > e) (hr : inp.reload = some d) :
    rendering_write_phase s inp vd =
      ⟨⟨.stopped (some d) 0, s.previous_position⟩, false, vd, true, some .vsync⟩ := by
  unfold rendering_write_phase
  rw [hm, hw, hr]
  simp only [eq_self_iff_true, if_true]
  rw [if_pos hc]
  rfl

lemma draw_to_write_phase (rate : Nat) (s : St) (inp : TickIn)
    (hdraw : inp.draw_ok = true) :
    ∃ prev2 vd, draw rate s inp = rendering_write_phase ⟨s.mode, prev2⟩ inp vd := by
  unfold draw
  by_cases h : current_position rate s.mode inp.sound_position ≠ s.previous_position
  · rw [if_pos h, hdraw, if_pos rfl]
    exact ⟨_, _, rfl⟩
  · rw [if_neg h]
    exact ⟨s.previous_position, none, rfl⟩

lemma draw_rendering_fail (rate : Nat) (s : St) (inp : TickIn) (e c : Nat)
    (d : SoundData) (hm : s.mode = .rendering e c) (hdraw : inp.draw_ok = true)
    (hw : inp.write_ok = false) (hr : inp.reload = some d) :
    ∃ p2 vd, draw rate s inp =
      ⟨⟨.stopped (some d) 0, p2⟩, false, vd, true, some .vsync⟩ := by
  obtain ⟨p2, vd, heq⟩ := draw_to_write_phase rate s inp hdraw
  exact ⟨p2, vd, by rw [heq, write_phase_fail ⟨s.mode, p2⟩ inp vd e c d hm hw hr]⟩

lemma draw_rendering_continue (rate : Nat) (s : St) (inp : TickIn) (e c : Nat)
    (hm : s.mode = .rendering e c) (hdraw : inp.draw_ok = true)
    (hw : inp.write_ok = true) (hc : c + 1 ≤ e) :
    ∃ p2 vd, draw rate s inp =
      ⟨⟨.rendering e (c + 1), p2⟩, false, vd, true, none⟩ := by
  obtain ⟨p2, vd, heq⟩ := draw_to_write_phase rate s inp hdraw
  exact ⟨p2, vd, by rw [heq, write_phase_continue ⟨s.mode, p2⟩ inp vd e c hm hw hc]⟩

lemma draw_rendering_finish (rate : Nat) (s : St) (inp : TickIn) (e c : Nat)
    (d : SoundData) (hm : s.mode = .rendering e c) (hdraw : inp.draw_ok = true)
    (hw : inp.write_ok = true) (hc : c + 1 > e) (hr : inp.reload = some d) :
    ∃ p2 vd, draw rate s inp =
      ⟨⟨.stopped (some d) 0, p2⟩, false, vd, true, some .vsync⟩ := by
  obtain ⟨p2, vd, heq⟩ := draw_to_write_phase rate s inp hdraw
  exact ⟨p2, vd, by rw [heq, write_phase_finish ⟨s.mode, p2⟩ inp vd e c d hm hw hc hr]⟩

lemma run_draw_cons (rate : Nat) (s : St) (inp : TickIn) (rest : List TickIn) :
    run_draw rate s (inp :: rest) =
      if (draw rate s inp).errored then
        ((draw rate s inp).st, if (draw rate s inp).wrote then 1 else 0)
      else
        ((run_draw rate (draw rate s inp).st rest).1,
          (if (draw rate s inp).wrote then 1 else 0) +
            (run_draw rate (draw rate s inp).st rest).2) := rfl

/-- An export run of `k = end_frame + 1 - current_frame` all-successful
ticks reaches `Stopped` having attempted exactly `k` encoder writes. -/
lemma run_draw_good (rate : Nat) (d : SoundData) (sp : ℚ) :
    ∀ (k e c : Nat) (prev : ℚ), 1 ≤ k → c + k = e + 1 →
      (run_draw rate ⟨.rendering e c, prev⟩
          (List.replicate k ⟨sp, true, true, some d⟩)).1.mode = .stopped (some d) 0 ∧
      (run_draw rate ⟨.rendering e c, prev⟩
          (List.replicate k ⟨sp, true, true, some d⟩)).2 = k := by
  intro k
  induction k with
  | zero =>
    intro e c prev h1 h2
    omega
  | succ n ih =>
    intro e c prev h1 h2
    rw [List.replicate_succ, run_draw_cons]
    by_cases hn : n = 0
    · subst hn
      obtain ⟨p2, vd, heq⟩ := draw_rendering_finish rate ⟨.rendering e c, prev⟩
        ⟨sp, true, true, some d⟩ e c d rfl rfl rfl (by omega) rfl
      rw [heq]
      exact ⟨rfl, rfl⟩
    · obtain ⟨p2, vd, heq⟩ := draw_rendering_continue rate ⟨.rendering e c, prev⟩
        ⟨sp, true, true, some d⟩ e c rfl rfl rfl (by omega)
      rw [heq]
      have hind := ih e (c + 1) p2 (by omega) (by omega)
      constructor
      · show (run_draw rate ⟨.rendering e (c + 1), p2⟩
          (List.replicate n ⟨sp, true, true, some d⟩)).1.mode = .stopped (some d) 0
        exact hind.1
      · show 1 + (run_draw rate ⟨.rendering e (c + 1), p2⟩
          (List.replicate n ⟨sp, true, true, some d⟩)).2 = n + 1
        rw [hind.2]
        omega

/-- An export run of `k` successful ticks (staying strictly inside the
range) followed by one failed encoder write reaches `Stopped` having
attempted exactly `k + 1` writes. -/
lemma run_draw_prefix_fail (rate : Nat) (d : SoundData) (sp sp2 : ℚ) :
    ∀ (k e c : Nat) (prev : ℚ), c + k ≤ e →
      (run_draw rate ⟨.rendering e c, prev⟩
          (List.replicate k ⟨sp, true, true, some d⟩ ++
            [⟨sp2, true, false, some d⟩])).1.mode = .stopped (some d) 0 ∧
      (run_draw rate ⟨.rendering e c, prev⟩
          (List.replicate k ⟨sp, true, true, some d⟩ ++
            [⟨sp2, true, false, some d⟩])).2 = k + 1 := by
  intro k
  induction k with
  | zero =>
    intro e c prev hk
    rw [show List.replicate 0 (⟨sp, true, true, some d⟩ : TickIn) ++
        [⟨sp2, true, false, some d⟩] = [⟨sp2, true, false, some d⟩] from rfl]
    rw [run_draw_cons]
    obtain ⟨p2, vd, heq⟩ := draw_rendering_fail rate ⟨.rendering e c, prev⟩
      ⟨sp2, true, false, some d⟩ e c d rfl rfl rfl rfl
    rw [heq]
    exact ⟨rfl, rfl⟩
  | succ n ih =>
    intro e c prev hk
    rw [show List.replicate (n + 1) (⟨sp, true, true, some d⟩ : TickIn) ++
        [⟨sp2, true, false, some d⟩] =
        ⟨sp, true, true, some d⟩ ::
          (List.replicate n ⟨sp, true, true, some d⟩ ++ [⟨sp2, true, false, some d⟩]) from by
      rw [List.replicate_succ, List.cons_append]]
    rw [run_draw_cons]
    obtain ⟨p2, vd, heq⟩ := draw_rendering_continue rate ⟨.rendering e c, prev⟩
      ⟨sp, true, true, some d⟩ e c rfl rfl rfl (by omega)
    rw [heq]
    have hind := ih e (c + 1) p2 (by omega)
    constructor
    · show (run_draw rate ⟨.rendering e (c + 1), p2⟩
        (List.replicate n ⟨sp, true, true, some d⟩ ++
          [⟨sp2, true, false, some d⟩])).1.mode = .stopped (some d) 0
      exact hind.1
    · show 1 + (run_draw rate ⟨.rendering e (c + 1), p2⟩
        (List.replicate n ⟨sp, true, true, some d⟩ ++
          [⟨sp2, true, false, some d⟩])).2 = n + 1 + 1
      rw [hind.2]
      omega

/-! ## C1: per-tick export behavior -/

/-- Claim C1: while Rendering, on every tick whose visual dispatch does
not fail: a failed encoder write transitions immediately to `Stopped`
(with VSync restored) without `current_frame` being advanced; a successful
write increments `current_frame` by exactly 1, and once it exceeds
`end_frame` the export completes by transitioning to `Stopped` and
restoring VSync. Consequently an export over frames [100, 200] performs
exactly 101 frame writes and ends `Stopped`, and a run whose write fails
at frame 150 reaches `Stopped` after only 51 write attempts, never
reaching frame 200. -/
theorem C1_rendering_tick (rate : Nat) (prev : ℚ) (inp : TickIn) (d d2 : SoundData)
    (e c : Nat) (hdraw : inp.draw_ok = true) :
    (inp.write_ok = false → inp.reload = some d →
      (draw rate ⟨.rendering e c, prev⟩ inp).st.mode = .stopped (some d) 0 ∧
      (draw rate ⟨.rendering e c, prev⟩ inp).wrote = true ∧
      (draw rate ⟨.rendering e c, prev⟩ inp).swap_request = some .vsync) ∧
    (inp.write_ok = true → c + 1 ≤ e →
      (draw rate ⟨.rendering e c, prev⟩ inp).st.mode = .rendering e (c + 1)) ∧
    (inp.write_ok = true → c + 1 > e → inp.reload = some d →
      (draw rate ⟨.rendering e c, prev⟩ inp).st.mode = .stopped (some d) 0 ∧
      (draw rate ⟨.rendering e c, prev⟩ inp).swap_request = some .vsync) ∧
    ((run_draw rate ⟨.rendering 200 100, prev⟩
        (List.replicate 101 ⟨0, true, true, some d2⟩)).1.mode = .stopped (some d2) 0 ∧
      (run_draw rate ⟨.rendering 200 100, prev⟩
        (List.replicate 101 ⟨0, true, true, some d2⟩)).2 = 101) ∧
    ((run_draw rate ⟨.rendering 200 100, prev⟩
        (List.replicate 50 ⟨0, true, true, some d2⟩ ++
          [⟨0, true, false, some d2⟩])).1.mode = .stopped (some d2) 0 ∧
      (run_draw rate ⟨.rendering 200 100, prev⟩
        (List.replicate 50 ⟨0, true, true, some d2⟩ ++
          [⟨0, true, false, some d2⟩])).2 = 51) := by
  refine ⟨?_, ?_, ?_, ?_, ?_⟩
  · intro hw hr
    obtain ⟨p2, vd, heq⟩ := draw_rendering_fail rate ⟨.rendering e c, prev⟩ inp e c d
      rfl hdraw hw hr
    rw [heq]
    exact ⟨rfl, rfl, rfl⟩
  · intro hw hc
    obtain ⟨p2, vd, heq⟩ := draw_rendering_continue rate ⟨.rendering e c, prev⟩ inp e c
      rfl hdraw hw hc
    rw [heq]
  · intro hw hc hr
    obtain ⟨p2, vd, heq⟩ := draw_rendering_finish rate ⟨.rendering e c, prev⟩ inp e c d
      rfl hdraw hw hc hr
    rw [heq]
    exact ⟨rfl, rfl⟩
  · exact run_draw_good rate d2 0 101 200 100 prev (by omega) (by omega)
  · exact run_draw_prefix_fail rate d2 0 0 50 200 100 prev (by omega)

/-- Witness for C1 at 60 fps: a failed write at frame 150 of an export
over [100, 200], and the 101-write full run. -/
theorem C1_rendering_tick_witness :
    (⟨(0 : ℚ), true, false, some (⟨0⟩ : SoundData)⟩ : TickIn).draw_ok = true ∧
    ((draw 60 ⟨.rendering 200 150, 0⟩ ⟨0, true, false, some ⟨0⟩⟩).st.mode
        = .stopped (some ⟨0⟩) 0 ∧
      (run_draw 60 ⟨.rendering 200 100, 0⟩
        (List.replicate 101 ⟨0, true, true, some ⟨0⟩⟩)).2 = 101) :=
  ⟨rfl,
    ((C1_rendering_tick 60 0 ⟨0, true, false, some ⟨0⟩⟩ ⟨0⟩ ⟨0⟩ 200 150 rfl).1 rfl rfl).1,
    ((C1_rendering_tick 60 0 ⟨0, true, false, some ⟨0⟩⟩ ⟨0⟩ ⟨0⟩ 200 150 rfl).2.2.2.1).2⟩

end MicroVisualizer
